import Mathlib

/-!
Verification of the attendance lifecycle engine of the Whatsapp attendance
bot.  The definitions below are a shallow embedding of the JavaScript
source: the Mongoose models `AttendanceRecord` (src/models/AttendanceRecord.js)
and `Subject` (src/models/Subject.js), the attendance-response path of
`MessageHandler` (src/handlers/messageHandler.js), the scheduler passes of
`SchedulerService` (src/services/schedulerService.js) and the command
dispatcher and edit wizard of `CommandHandler`.

Times are modelled as integer milliseconds (JavaScript `Date.getTime()`
arithmetic on ms values is exact).  Counter arithmetic on small integers is
exact in IEEE doubles, so the counters are modelled as natural numbers and
`Math.round` on the derived rational percentage as rounding half up.
-/

namespace WhatsappBot

/-- The `status` enum of the AttendanceRecord schema:
`["present", "absent", "pending", "massBunked", "holiday"]`, default `pending`. -/
inductive Status where
  | present
  | absent
  | pending
  | massBunked
  | holiday
deriving DecidableEq, Repr

/-- One AttendanceRecord document.  `scheduledTime` and `responseTime` are
epoch milliseconds; `subjectId` is the populated subject reference
(`none` models a null/dangling reference); `date`, `userId` and `notes` play
no role in the verified operations and are omitted. -/
structure AttendanceRecord where
  status : Status
  responseTime : Option Int
  reminderSent : Bool
  confirmationSent : Bool
  autoMarked : Bool
  scheduledTime : Int
  subjectId : Option Nat
deriving DecidableEq, Repr

/-- `markPresent(responseTime = new Date())`: sets `status = "present"` and
stamps the response time.  There is no guard on the current status. -/
def markPresent (r : AttendanceRecord) (responseTime : Int) : AttendanceRecord :=
  { r with status := .present, responseTime := some responseTime }

/-- `markAbsent(autoMarked = false)`: sets `status = "absent"`, stores the
`autoMarked` flag and stamps the response time only when auto-marked.
There is no guard on the current status. -/
def markAbsent (r : AttendanceRecord) (autoMarked : Bool) (now : Int) : AttendanceRecord :=
  { r with status := .absent, autoMarked := autoMarked,
           responseTime := if autoMarked then some now else r.responseTime }

/-- `markMassBunk(responseTime = new Date())`: sets `status = "massBunked"`
and stamps the response time.  There is no guard on the current status. -/
def markMassBunk (r : AttendanceRecord) (responseTime : Int) : AttendanceRecord :=
  { r with status := .massBunked, responseTime := some responseTime }

/-- `markHoliday(responseTime = new Date())`: sets `status = "holiday"`
and stamps the response time.  There is no guard on the current status. -/
def markHoliday (r : AttendanceRecord) (responseTime : Int) : AttendanceRecord :=
  { r with status := .holiday, responseTime := some responseTime }

/-- `AttendanceRecord.createForClass(userId, subjectId, scheduledTime)`:
a fresh record with the schema defaults (`status = "pending"`, both sent
flags false, `autoMarked` false, no response time). -/
def createForClass (subjectId : Nat) (scheduledTime : Int) : AttendanceRecord :=
  { status := .pending, responseTime := none, reminderSent := false,
    confirmationSent := false, autoMarked := false,
    scheduledTime := scheduledTime, subjectId := some subjectId }

/-- The counter fields of one Subject document (src/models/Subject.js).
The `schedule` subdocument is modelled separately as `ClassSchedule`. -/
structure Subject where
  totalClasses : Nat
  attendedClasses : Nat
  massBunkedClasses : Nat
  holidayClasses : Nat
deriving DecidableEq, Repr

/-- `Math.round(num / den)` for natural `num` and positive `den`:
JavaScript rounds half up, and `floor (n / d + 1 / 2) = (2 n + d) / (2 d)`
in integer arithmetic. -/
def jsRound (num den : Nat) : Nat :=
  (2 * num + den) / (2 * den)

/-- The `attendancePercentage` virtual:
`effectiveTotal = totalClasses; if (effectiveTotal <= 0) return 100;
return Math.round((attendedClasses / effectiveTotal) * 100)`. -/
def attendancePercentage (s : Subject) : Nat :=
  if s.totalClasses = 0 then 100
  else jsRound (s.attendedClasses * 100) s.totalClasses

/-- The `attendancePercentageWithBunks` virtual:
`effectiveTotal = totalClasses - massBunkedClasses; if (effectiveTotal <= 0)
return 100; return Math.round((attendedClasses / effectiveTotal) * 100)`.
The subtraction is JavaScript number subtraction, so it is computed in `Int`. -/
def attendancePercentageWithBunks (s : Subject) : Nat :=
  if (s.totalClasses : Int) - (s.massBunkedClasses : Int) ≤ 0 then 100
  else jsRound (s.attendedClasses * 100) (s.totalClasses - s.massBunkedClasses)

/-- `Subject.markAttendance(isPresent = true, isMassBunk = false,
isHoliday = false)`: a holiday increments only `holidayClasses`; otherwise
`totalClasses` is incremented, plus `attendedClasses` when present and
`massBunkedClasses` when a mass bunk. -/
def markAttendance (s : Subject) (isPresent isMassBunk isHoliday : Bool) : Subject :=
  if isHoliday then
    { s with holidayClasses := s.holidayClasses + 1 }
  else
    { s with
      totalClasses := s.totalClasses + 1,
      attendedClasses := s.attendedClasses + (if isPresent then 1 else 0),
      massBunkedClasses := s.massBunkedClasses + (if isMassBunk then 1 else 0) }

/-- Stage 4 of `handleEditConversation` (new total): the input is the
`parseInt` result of the reply (`none` models `NaN`); accepted whenever it
is a non-negative number, with no comparison against the other counters. -/
def editStage4 (s : Subject) (v : Option Int) : Subject :=
  match v with
  | none => s
  | some n => if n < 0 then s else { s with totalClasses := n.toNat }

/-- Stage 5 of `handleEditConversation` (new attended count): rejected when
negative or greater than `totalClasses`. -/
def editStage5 (s : Subject) (v : Option Int) : Subject :=
  match v with
  | none => s
  | some n =>
    if n < 0 ∨ (s.totalClasses : Int) < n then s
    else { s with attendedClasses := n.toNat }

/-- Stage 6 of `handleEditConversation` (new mass-bunked count): rejected
when negative or greater than `totalClasses`. -/
def editStage6 (s : Subject) (v : Option Int) : Subject :=
  match v with
  | none => s
  | some n =>
    if n < 0 ∨ (s.totalClasses : Int) < n then s
    else { s with massBunkedClasses := n.toNat }

/-- Stage 7 of `handleEditConversation` (new holiday count): accepted
whenever non-negative. -/
def editStage7 (s : Subject) (v : Option Int) : Subject :=
  match v with
  | none => s
  | some n => if n < 0 then s else { s with holidayClasses := n.toNat }

/-- Whether `sub` occurs at the start of `s` (character lists). -/
def startsWithChars : List Char → List Char → Bool
  | [], _ => true
  | _ :: _, [] => false
  | a :: as, b :: bs => a == b && startsWithChars as bs

/-- Whether `sub` occurs contiguously inside `s` (character lists). -/
def containsChars (sub : List Char) : List Char → Bool
  | [] => sub.isEmpty
  | c :: rest => startsWithChars sub (c :: rest) || containsChars sub rest

/-- JavaScript `s.includes(sub)`: substring test. -/
def jsIncludes (s sub : String) : Bool :=
  containsChars sub.data s.data

/-- The token `couldn` + apostrophe + `t` from the negative vocabulary. -/
def couldNotToken : String :=
  "couldn" ++ (Char.ofNat 39).toString ++ "t"

/-- `ATTENDANCE_RESPONSES.POSITIVE` from src/utils/constants.js. -/
def POSITIVE : List String :=
  ["yes", "y", "yeah", "yep", "yup", "present", "attended", "there", "came",
   "went", "हां", "जी", "उपस्थित", "आया", "गया", "था"]

/-- `ATTENDANCE_RESPONSES.NEGATIVE` from src/utils/constants.js. -/
def NEGATIVE : List String :=
  ["no", "n", "nope", "nah", "absent", "missed", "not", couldNotToken, "skip",
   "skipped", "नहीं", "ना", "अनुपस्थित", "नहीं आया", "छूटा", "नहीं गया"]

/-- `ATTENDANCE_RESPONSES.MASS_BUNK` from src/utils/constants.js. -/
def MASS_BUNK : List String :=
  ["mass bunk", "massbunk", "bunked"]

/-- `ATTENDANCE_RESPONSES.HOLIDAY` from src/utils/constants.js. -/
def HOLIDAY : List String :=
  ["holiday"]

/-- `MessageHandler.isAttendanceResponse(messageBody)`: concatenates the four
vocabulary lists and returns `allResponses.includes(messageBody)` — exact
array membership of the (already lowercased, trimmed) message. -/
def isAttendanceResponse (messageBody : String) : Bool :=
  (POSITIVE ++ NEGATIVE ++ MASS_BUNK ++ HOLIDAY).contains messageBody

/-- `MessageHandler.parseAttendanceResponse(messageBody)`: the four sets are
tried in order, each with `messageBody === response ||
messageBody.includes(response)`; returns `undefined` (here `none`) when no
set matches. -/
def parseAttendanceResponse (messageBody : String) : Option Status :=
  if POSITIVE.any (fun t => messageBody == t || jsIncludes messageBody t) then
    some .present
  else if NEGATIVE.any (fun t => messageBody == t || jsIncludes messageBody t) then
    some .absent
  else if MASS_BUNK.any (fun t => messageBody == t || jsIncludes messageBody t) then
    some .massBunked
  else if HOLIDAY.any (fun t => messageBody == t || jsIncludes messageBody t) then
    some .holiday
  else
    none

/-- The filter of the `findOne` query in `handleAttendanceResponse`:
`{ userId, status: "pending", subjectId: { $ne: null } }`. -/
def isCand (r : AttendanceRecord) : Bool :=
  r.status == .pending && r.subjectId.isSome

/-- The record returned by
`findOne({status: "pending", subjectId: {$ne: null}}).sort({scheduledTime: -1})`
over the list of records of one user, together with its position: the
candidate with the greatest `scheduledTime` (the first such position when
several candidates tie, the tie order of the store being unspecified). -/
def selectPending : List AttendanceRecord → Option (Nat × AttendanceRecord)
  | [] => none
  | r :: rest =>
    match selectPending rest with
    | none => if isCand r then some (0, r) else none
    | some (b, rb) =>
      if isCand r then
        if rb.scheduledTime ≤ r.scheduledTime then some (0, r) else some (b + 1, rb)
      else some (b + 1, rb)

/-- The durable state touched by the attendance-response path: the list of
attendance records of the user (in store order) and the subject documents,
keyed by subject id. -/
structure AttendanceStore where
  records : List AttendanceRecord
  subjects : Nat → Subject

/-- Pointwise update of the subject table at one key. -/
def updateSubject (f : Nat → Subject) (sid : Nat) (s : Subject) : Nat → Subject :=
  fun k => if k = sid then s else f k

/-- `MessageHandler.handleAttendanceResponse`: looks up the latest pending
record (with a populated subject), classifies the message with
`parseAttendanceResponse`, and per branch marks the record and applies the
matching counter update to the owning subject
(`markAttendance(true,false,false)` for present,
`markAttendance(false,false,false)` for absent,
`markAttendance(false,true,false)` for mass bunk and
`markAttendance(false,false,true)` for holiday).  When no branch matches,
or no pending record exists, nothing is written. -/
def handleAttendanceResponse (st : AttendanceStore) (messageBody : String)
    (now : Int) : AttendanceStore :=
  match selectPending st.records with
  | none => st
  | some (i, r) =>
    match r.subjectId with
    | none => st
    | some sid =>
      match parseAttendanceResponse messageBody with
      | some .present =>
        { records := st.records.set i (markPresent r now),
          subjects := updateSubject st.subjects sid
            (markAttendance (st.subjects sid) true false false) }
      | some .absent =>
        { records := st.records.set i (markAbsent r false now),
          subjects := updateSubject st.subjects sid
            (markAttendance (st.subjects sid) false false false) }
      | some .massBunked =>
        { records := st.records.set i (markMassBunk r now),
          subjects := updateSubject st.subjects sid
            (markAttendance (st.subjects sid) false true false) }
      | some .holiday =>
        { records := st.records.set i (markHoliday r now),
          subjects := updateSubject st.subjects sid
            (markAttendance (st.subjects sid) false false true) }
      | _ => st

/-- `AttendanceRecord.findOverdueRecords(timeoutHours = 2)`:
`cutoffTime = Date.now() - timeoutMs - 10 * 60 * 1000` and the query selects
`{ status: "pending", scheduledTime: { $lt: cutoffTime } }`. -/
def findOverdueRecords (now : Int) (records : List AttendanceRecord)
    (timeoutHours : Int) : List AttendanceRecord :=
  records.filter
    (fun r => r.status == .pending &&
      r.scheduledTime < now - timeoutHours * 3600000 - 10 * 60 * 1000)

/-- The per-record action of `SchedulerService.checkForOverdueAttendance`:
it iterates `findOverdueRecords(2)`, skips records whose populated subject
is null, and for each remaining record runs `record.markAbsent(true)` and
`record.subjectId.markAttendance(false)`.  A record outside the overdue
query result is untouched by the pass. -/
def overduePass (now : Int) (r : AttendanceRecord) (s : Subject) :
    AttendanceRecord × Subject :=
  if r.status == .pending &&
      r.scheduledTime < now - 2 * 3600000 - 10 * 60 * 1000 &&
      r.subjectId.isSome then
    (markAbsent r true now, markAttendance s false false false)
  else
    (r, s)

/-- Modelled from the spec: the confirmation-eligibility instant is defined
there as the occurrence end time (`scheduledTime` plus the class duration)
plus the configured delay, and a record counts as overdue once it has been
pending for longer than the 2-hour timeout measured from that instant.
This definition follows the words of the spec for comparison with the
behaviour of `findOverdueRecords`, which the source measures from
`scheduledTime` itself plus a fixed 10 minutes. -/
def specOverdueDeadlinePassed (r : AttendanceRecord)
    (durationMs delayMs now : Int) : Prop :=
  r.scheduledTime + durationMs + delayMs + 2 * 3600000 < now

/-- The weekly recurrence of the `schedule` subdocument of a Subject:
`day` is the JavaScript weekday index (0 = Sunday) of `schedule.day`, and
`hour`/`minute` come from splitting `schedule.time`. -/
structure ClassSchedule where
  day : Nat
  hour : Nat
  minute : Nat
deriving DecidableEq, Repr

/-- Milliseconds in one week. -/
def msPerWeek : Int := 7 * 24 * 60 * 60 * 1000

/-- `Subject.getNextClassTime(timezone)`: with `now` projected into the user
timezone (modelled as milliseconds since the start of the local week,
Sunday-based, matching `moment().day()`), the target is
`now.clone().day(targetDay).hour(h).minute(m).second(0)` — which keeps the
sub-second part of `now` — and one week is added when that instant
`isSameOrBefore(now)`. -/
def getNextClassTime (sched : ClassSchedule) (now : Int) : Int :=
  let target : Int :=
    (((sched.day * 24 + sched.hour) * 60 + sched.minute : Nat) : Int) * 60000
      + now % 1000
  if target ≤ now then target + msPerWeek else target

/-- `moment#diff(other, "minutes")`: the millisecond difference divided by
60000 and truncated toward zero (`Int.tdiv` is toward-zero division). -/
def momentDiffMinutes (a b : Int) : Int :=
  Int.tdiv (a - b) 60000

/-- The firing condition of `SchedulerService.checkForClassReminders` for
one subject: `reminderTime = nextClassTime - 10 minutes` and the reminder
is sent when `Math.abs(now.diff(reminderTime, "minutes")) < 1`. -/
def shouldSendReminder (sched : ClassSchedule) (now : Int) : Bool :=
  decide ((momentDiffMinutes now (getNextClassTime sched now - 10 * 60000)).natAbs < 1)

/-- `SchedulerService.sendClassReminder` acting on the looked-up record of
the day (`none` when the lookup found nothing): when the client is missing
or reminders are disabled nothing happens; when the record already has
`reminderSent` it returns without dispatching; otherwise the reminder is
dispatched (second component `true`), a missing record is created via
`createForClass`, and `reminderSent` is set. -/
def sendClassReminderStep (enabled : Bool) (sid : Nat) (classTime : Int)
    (opt : Option AttendanceRecord) : Option AttendanceRecord × Bool :=
  if enabled = false then (opt, false)
  else
    match opt with
    | some r =>
      if r.reminderSent then (some r, false)
      else (some { r with reminderSent := true }, true)
    | none =>
      (some { createForClass sid classTime with reminderSent := true }, true)

/-- `SchedulerService.sendAttendanceConfirmation` acting on one record:
when the record is no longer pending or `confirmationSent` is already set
it returns without dispatching; otherwise the prompt is dispatched (second
component `true`) and `confirmationSent` is set. -/
def sendAttendanceConfirmationStep (r : AttendanceRecord) :
    AttendanceRecord × Bool :=
  if r.status ≠ .pending ∨ r.confirmationSent then (r, false)
  else ({ r with confirmationSent := true }, true)

/-- `n` reminder passes over the same record slot, counting dispatched
reminders. -/
def iterReminder (enabled : Bool) (sid : Nat) (classTime : Int) :
    Nat → Option AttendanceRecord → Option AttendanceRecord × Nat
  | 0, opt => (opt, 0)
  | n + 1, opt =>
    let step := sendClassReminderStep enabled sid classTime opt
    let rest := iterReminder enabled sid classTime n step.1
    (rest.1, (if step.2 then 1 else 0) + rest.2)

/-- `n` confirmation passes over the same record, counting dispatched
prompts. -/
def iterConfirmation : Nat → AttendanceRecord → AttendanceRecord × Nat
  | 0, r => (r, 0)
  | n + 1, r =>
    let step := sendAttendanceConfirmationStep r
    let rest := iterConfirmation n step.1
    (rest.1, (if step.2 then 1 else 0) + rest.2)

/-- The process-local session state of one user inside
`CommandHandler`/`MessageHandler`: the `activeCommand` marker, whether an
edit wizard session is open, a pending subject-removal confirmation
(holding the subject name it was issued for) and a pending clear-list
confirmation. -/
structure SessionState where
  activeCommand : Option String
  editing : Bool
  pendingRemove : Option String
  pendingClearList : Bool
deriving DecidableEq, Repr

/-- The user-visible outcome of one inbound command, with exactly the
session-identifying data that the corresponding source message template
interpolates: the generic dispatcher conflict text (`A command is already
active...`) interpolates nothing; the duplicate-removal conflict text
interpolates the pending subject name; the duplicate clear-list conflict
text interpolates nothing. -/
inductive Reply where
  | conflictCommandActive
  | wizardInput
  | conflictPendingRemoval (subjectName : String)
  | conflictPendingClearList
  | flowStarted
  | otherHandled
deriving DecidableEq, Repr

/-- The in-progress-flow identity carried by the message text of a reply
(the data its template interpolates). -/
def Reply.namedFlow : Reply → Option String
  | .conflictPendingRemoval n => some n
  | _ => none

/-- `CommandHandler.handleRemove` restricted to its session effects:
an already-pending removal confirmation is surfaced (naming the pending
subject) and nothing changes; otherwise, when the named subject exists
(`found = some name`), a pending confirmation for it is opened; when the
arguments are empty or the subject is missing, the active-command marker is
released and an informational reply is sent. -/
def handleRemove (st : SessionState) (found : Option String) :
    SessionState × Reply :=
  match st.pendingRemove with
  | some n => (st, .conflictPendingRemoval n)
  | none =>
    match found with
    | some name => ({ st with pendingRemove := some name }, .flowStarted)
    | none => ({ st with activeCommand := none }, .otherHandled)

/-- `CommandHandler.handleClearList` restricted to its session effects. -/
def handleClearList (st : SessionState) : SessionState × Reply :=
  if st.pendingClearList then (st, .conflictPendingClearList)
  else ({ st with pendingClearList := true }, .flowStarted)

/-- `CommandHandler.handleCommand` for a registered user, restricted to its
session effects: a stored `activeCommand` differing from the incoming
command yields the generic conflict and returns at once; an open edit
session routes the message into `handleEditConversation` (wizard input);
otherwise the marker is set (except for `/start` and `/help`) and the
command handlers run — `/remove`, `/clearlist` and `/edit` are the
flow-starting ones (`found` is the subject lookup result; a found `/edit`
target opens the wizard, a missing one releases the marker). -/
def handleCommand (st : SessionState) (cmd : String) (found : Option String) :
    SessionState × Reply :=
  if st.activeCommand.isSome && st.activeCommand != some cmd then
    (st, .conflictCommandActive)
  else if st.editing then
    (st, .wizardInput)
  else
    let st1 :=
      if cmd ≠ "/start" ∧ cmd ≠ "/help" then { st with activeCommand := some cmd }
      else st
    if cmd = "/remove" then handleRemove st1 found
    else if cmd = "/clearlist" then handleClearList st1
    else if cmd = "/edit" then
      match found with
      | some _ => ({ st1 with editing := true }, .flowStarted)
      | none => ({ st1 with activeCommand := none }, .otherHandled)
    else (st1, .otherHandled)

/-- The counter invariant stated by the specification for a Subject:
attended never exceeds total and mass-bunked never exceeds total. -/
def SubjectInv (s : Subject) : Prop :=
  s.attendedClasses ≤ s.totalClasses ∧ s.massBunkedClasses ≤ s.totalClasses

instance (s : Subject) : Decidable (SubjectInv s) := by
  unfold SubjectInv; infer_instance

/-- Modelled from the spec: a message matches the response vocabulary when
it equals or contains one of the tokens of any of the four sets.  This
follows the words of the spec for comparison with `isAttendanceResponse`. -/
def specIsAttendanceResponse (m : String) : Bool :=
  (POSITIVE ++ NEGATIVE ++ MASS_BUNK ++ HOLIDAY).any
    (fun t => m == t || jsIncludes m t)

/-- Integer rounding of a rational quotient of naturals agrees with the
`jsRound` integer formula. -/
lemma jsRound_eq_round (n d : ℕ) (hd : 0 < d) :
    (jsRound n d : ℤ) = round ((n : ℚ) / (d : ℚ)) := by
  have hdq : ((d : ℚ)) ≠ 0 := by
    exact_mod_cast hd.ne'
  rw [round_eq]
  have key : (n : ℚ) / (d : ℚ) + 1 / 2 = ((2 * n + d : ℕ) : ℚ) / ((2 * d : ℕ) : ℚ) := by
    push_cast
    field_simp
    ring
  rw [key]
  have hnn : (0 : ℚ) ≤ ((2 * n + d : ℕ) : ℚ) / ((2 * d : ℕ) : ℚ) := by positivity
  rw [← Int.natCast_floor_eq_floor hnn, Nat.floor_div_eq_div]
  rfl

/-- C3: `attendancePercentage` is the rounded ratio of attended to total
classes (100 when no classes yet) and `attendancePercentageWithBunks` is
the rounded ratio against the total minus the mass-bunked classes (100
when that adjusted denominator is not positive); in particular
(attended 0, total 0) gives 100, (attended 7, total 10) gives 70 and
(attended 5, total 10, massBunked 10) gives 100. -/
theorem c3_percentage_semantics (s : Subject) :
    ((attendancePercentage s : ℤ) =
      if s.totalClasses = 0 then 100
      else round ((s.attendedClasses : ℚ) / (s.totalClasses : ℚ) * 100)) ∧
    ((attendancePercentageWithBunks s : ℤ) =
      if (s.totalClasses : ℤ) - (s.massBunkedClasses : ℤ) ≤ 0 then 100
      else round ((s.attendedClasses : ℚ) /
        ((s.totalClasses : ℚ) - (s.massBunkedClasses : ℚ)) * 100)) ∧
    attendancePercentage ⟨0, 0, 0, 0⟩ = 100 ∧
    attendancePercentage ⟨10, 7, 0, 0⟩ = 70 ∧
    attendancePercentageWithBunks ⟨10, 5, 10, 0⟩ = 100 := by
  refine ⟨?_, ?_, by decide, by decide, by decide⟩
  · by_cases h : s.totalClasses = 0
    · simp [attendancePercentage, h]
    · have h0 : 0 < s.totalClasses := Nat.pos_of_ne_zero h
      rw [attendancePercentage, if_neg h, if_neg h,
        jsRound_eq_round _ _ h0]
      congr 1
      push_cast
      ring
  · by_cases h : (s.totalClasses : ℤ) - (s.massBunkedClasses : ℤ) ≤ 0
    · simp [attendancePercentageWithBunks, h]
    · have hlt : s.massBunkedClasses < s.totalClasses := by omega
      have h0 : 0 < s.totalClasses - s.massBunkedClasses := by omega
      rw [attendancePercentageWithBunks, if_neg h, if_neg h,
        jsRound_eq_round _ _ h0]
      congr 1
      rw [Nat.cast_sub hlt.le]
      push_cast
      ring

/-- C6: resolving an occurrence as a holiday increments only the holiday
counter of the subject; total, attended and mass-bunked counters and both
percentages are unchanged, and the record itself gets status `holiday`. -/
theorem c6_holiday_frame (s : Subject) (isPresent isMassBunk : Bool)
    (r : AttendanceRecord) (t : Int) :
    markAttendance s isPresent isMassBunk true =
      { s with holidayClasses := s.holidayClasses + 1 } ∧
    (markAttendance s isPresent isMassBunk true).totalClasses = s.totalClasses ∧
    (markAttendance s isPresent isMassBunk true).attendedClasses =
      s.attendedClasses ∧
    (markAttendance s isPresent isMassBunk true).massBunkedClasses =
      s.massBunkedClasses ∧
    attendancePercentage (markAttendance s isPresent isMassBunk true) =
      attendancePercentage s ∧
    attendancePercentageWithBunks (markAttendance s isPresent isMassBunk true) =
      attendancePercentageWithBunks s ∧
    (markHoliday r t).status = .holiday := by
  refine ⟨rfl, rfl, rfl, rfl, rfl, rfl, rfl⟩

/-- A recognized message always falls into one branch of
`parseAttendanceResponse`. -/
lemma parse_isSome_of_recognized (m : String)
    (h : isAttendanceResponse m = true) :
    (parseAttendanceResponse m).isSome = true := by
  have hm : m ∈ POSITIVE ++ NEGATIVE ++ MASS_BUNK ++ HOLIDAY := by
    rw [isAttendanceResponse] at h
    simpa using h
  have key : (POSITIVE ++ NEGATIVE ++ MASS_BUNK ++ HOLIDAY).any
      (fun t => m == t || jsIncludes m t) = true := by
    rw [List.any_eq_true]
    exact ⟨m, hm, by simp⟩
  by_cases h1 : POSITIVE.any (fun t => m == t || jsIncludes m t) = true
  · simp [parseAttendanceResponse, h1]
  by_cases h2 : NEGATIVE.any (fun t => m == t || jsIncludes m t) = true
  · simp [parseAttendanceResponse, h1, h2]
  by_cases h3 : MASS_BUNK.any (fun t => m == t || jsIncludes m t) = true
  · simp [parseAttendanceResponse, h1, h2, h3]
  by_cases h4 : HOLIDAY.any (fun t => m == t || jsIncludes m t) = true
  · simp [parseAttendanceResponse, h1, h2, h3, h4]
  · exfalso
    simp only [List.any_append, Bool.or_eq_true] at key
    tauto

/-- C9 counterexample: the message `yes please` contains the affirmative
token `yes`, so by the claim it should be recognized as an attendance
response, but `isAttendanceResponse` tests exact list membership and
rejects it. -/
theorem c9_counterexample :
    specIsAttendanceResponse "yes please" = true ∧
    jsIncludes "yes please" "yes" = true ∧
    isAttendanceResponse "yes please" = false := by
  refine ⟨by decide, by decide, by decide⟩

/-- C9 (amended): a message is recognized as an attendance response iff it
exactly equals one of the tokens of the four vocabulary sets; the
equals-or-contains match is applied only by `parseAttendanceResponse` when
classifying a message, and every recognized message gets a classification. -/
theorem c9_recognition_exact (m : String) :
    (isAttendanceResponse m = true ↔
      m ∈ POSITIVE ∨ m ∈ NEGATIVE ∨ m ∈ MASS_BUNK ∨ m ∈ HOLIDAY) ∧
    (isAttendanceResponse m = true → (parseAttendanceResponse m).isSome = true) := by
  constructor
  · rw [isAttendanceResponse]
    simp [List.mem_append, or_assoc]
  · exact parse_isSome_of_recognized m

/-- C9 witness for the amended theorem at the token `yes`. -/
theorem c9_recognition_exact_witness :
    isAttendanceResponse "yes" = true ∧
    (parseAttendanceResponse "yes").isSome = true :=
  ⟨(c9_recognition_exact "yes").1.mpr (Or.inl (by decide)),
   (c9_recognition_exact "yes").2 (by decide)⟩

/-- A reminder pass over a record whose flag is already set is a no-op. -/
lemma reminder_step_flagged (enabled : Bool) (sid : Nat) (ct : Int)
    (r : AttendanceRecord) (h : r.reminderSent = true) :
    sendClassReminderStep enabled sid ct (some r) = (some r, false) := by
  cases enabled <;> simp [sendClassReminderStep, h]

/-- Iterated reminder passes over a flagged record do nothing. -/
lemma iterReminder_flagged (enabled : Bool) (sid : Nat) (ct : Int) :
    ∀ (n : Nat) (r : AttendanceRecord), r.reminderSent = true →
      iterReminder enabled sid ct n (some r) = (some r, 0) := by
  intro n
  induction n with
  | zero => intro r _; rfl
  | succ k ih =>
    intro r h
    simp [iterReminder, reminder_step_flagged enabled sid ct r h, ih r h]

/-- When a reminder pass dispatches, the slot afterwards holds a flagged
record. -/
lemma reminder_step_dispatch_flagged (enabled : Bool) (sid : Nat) (ct : Int)
    (opt : Option AttendanceRecord)
    (h : (sendClassReminderStep enabled sid ct opt).2 = true) :
    ∃ r, (sendClassReminderStep enabled sid ct opt).1 = some r ∧
      r.reminderSent = true := by
  cases enabled with
  | false => simp [sendClassReminderStep] at h
  | true =>
    cases opt with
    | none => exact ⟨_, rfl, rfl⟩
    | some r =>
      by_cases hr : r.reminderSent
      · rw [reminder_step_flagged true sid ct r hr] at h
        simp at h
      · refine ⟨{ r with reminderSent := true }, ?_, rfl⟩
        simp [sendClassReminderStep, hr]

/-- A confirmation pass over a record whose flag is already set is a no-op. -/
lemma confirmation_step_flagged (r : AttendanceRecord)
    (h : r.confirmationSent = true) :
    sendAttendanceConfirmationStep r = (r, false) := by
  simp [sendAttendanceConfirmationStep, h]

/-- Iterated confirmation passes over a flagged record do nothing. -/
lemma iterConfirmation_flagged :
    ∀ (n : Nat) (r : AttendanceRecord), r.confirmationSent = true →
      iterConfirmation n r = (r, 0) := by
  intro n
  induction n with
  | zero => intro r _; rfl
  | succ k ih =>
    intro r h
    simp [iterConfirmation, confirmation_step_flagged r h, ih r h]

/-- When a confirmation pass dispatches, the record afterwards is flagged. -/
lemma confirmation_step_dispatch_flagged (r : AttendanceRecord)
    (h : (sendAttendanceConfirmationStep r).2 = true) :
    (sendAttendanceConfirmationStep r).1.confirmationSent = true := by
  by_cases hc : r.status ≠ Status.pending ∨ r.confirmationSent = true
  · simp [sendAttendanceConfirmationStep, hc] at h
  · simp [sendAttendanceConfirmationStep, hc]

/-- C2: the sent flags are one-way and deduplicating — a pass over a record
whose `reminderSent` (resp. `confirmationSent`) flag is already true leaves
it unchanged and dispatches nothing, and over any number of scheduler
passes at most one reminder and at most one confirmation are ever
dispatched for the same record. -/
theorem c2_sent_flags_idempotent :
    (∀ (enabled : Bool) (sid : Nat) (ct : Int) (r : AttendanceRecord),
      sendClassReminderStep enabled sid ct
          (some { r with reminderSent := true }) =
        (some { r with reminderSent := true }, false)) ∧
    (∀ r : AttendanceRecord,
      sendAttendanceConfirmationStep { r with confirmationSent := true } =
        ({ r with confirmationSent := true }, false)) ∧
    (∀ (enabled : Bool) (sid : Nat) (ct : Int) (n : Nat)
        (opt : Option AttendanceRecord),
      (iterReminder enabled sid ct n opt).2 ≤ 1) ∧
    (∀ (n : Nat) (r : AttendanceRecord), (iterConfirmation n r).2 ≤ 1) := by
  refine ⟨fun enabled sid ct r => reminder_step_flagged enabled sid ct _ rfl,
    fun r => confirmation_step_flagged _ rfl, ?_, ?_⟩
  · intro enabled sid ct n
    induction n with
    | zero => intro opt; simp [iterReminder]
    | succ k ih =>
      intro opt
      by_cases hd : (sendClassReminderStep enabled sid ct opt).2 = true
      · obtain ⟨r, hr, hflag⟩ :=
          reminder_step_dispatch_flagged enabled sid ct opt hd
        simp [iterReminder, hd, hr, iterReminder_flagged enabled sid ct k r hflag]
      · simp only [Bool.not_eq_true] at hd
        simpa [iterReminder, hd] using ih (sendClassReminderStep enabled sid ct opt).1
  · intro n
    induction n with
    | zero => intro r; simp [iterConfirmation]
    | succ k ih =>
      intro r
      by_cases hd : (sendAttendanceConfirmationStep r).2 = true
      · have hflag := confirmation_step_dispatch_flagged r hd
        simp [iterConfirmation, hd,
          iterConfirmation_flagged k _ hflag]
      · simp only [Bool.not_eq_true] at hd
        simpa [iterConfirmation, hd] using ih (sendAttendanceConfirmationStep r).1

/-- C7 counterexample: a subject with 10 total and 5 attended classes
satisfies the invariant, but the edit-wizard total-classes update accepts
the new total `2` without checking the other counters, leaving
`attendedClasses = 5 > 2 = totalClasses`. -/
theorem c7_counterexample :
    SubjectInv ⟨10, 5, 0, 0⟩ ∧
    editStage4 ⟨10, 5, 0, 0⟩ (some 2) = ⟨2, 5, 0, 0⟩ ∧
    ¬ SubjectInv (editStage4 ⟨10, 5, 0, 0⟩ (some 2)) := by
  refine ⟨by decide, by decide, by decide⟩

/-- C7 (amended): `markAttendance` and the edit-wizard updates of the
attended, mass-bunked and holiday counters preserve the invariants
attended ≤ total and massBunked ≤ total; the total-classes update
(stage 4) validates only non-negativity and can break them. -/
theorem c7_counter_invariants (s : Subject) (p b hol : Bool) (v : Option Int)
    (hs : SubjectInv s) :
    SubjectInv (markAttendance s p b hol) ∧
    SubjectInv (editStage5 s v) ∧
    SubjectInv (editStage6 s v) ∧
    SubjectInv (editStage7 s v) := by
  obtain ⟨h1, h2⟩ := hs
  refine ⟨?_, ?_, ?_, ?_⟩
  · cases hol with
    | true => exact ⟨h1, h2⟩
    | false =>
      cases p <;> cases b <;>
        simp only [markAttendance, SubjectInv, Bool.false_eq_true,
          if_false, if_true, ite_true, ite_false] <;>
        constructor <;> omega
  · cases v with
    | none => exact ⟨h1, h2⟩
    | some n =>
      by_cases hn : n < 0 ∨ (s.totalClasses : Int) < n
      · simpa [editStage5, hn] using ⟨h1, h2⟩
      · push_neg at hn
        refine ⟨?_, by simpa [editStage5, not_or, hn.1.not_lt, hn.2.not_lt] using h2⟩
        have : n.toNat ≤ s.totalClasses := by omega
        simpa [editStage5, not_or, hn.1.not_lt, hn.2.not_lt] using this
  · cases v with
    | none => exact ⟨h1, h2⟩
    | some n =>
      by_cases hn : n < 0 ∨ (s.totalClasses : Int) < n
      · simpa [editStage6, hn] using ⟨h1, h2⟩
      · push_neg at hn
        refine ⟨by simpa [editStage6, not_or, hn.1.not_lt, hn.2.not_lt] using h1, ?_⟩
        have : n.toNat ≤ s.totalClasses := by omega
        simpa [editStage6, not_or, hn.1.not_lt, hn.2.not_lt] using this
  · cases v with
    | none => exact ⟨h1, h2⟩
    | some n =>
      by_cases hn : n < 0
      · simpa [editStage7, hn] using ⟨h1, h2⟩
      · simpa [editStage7, hn] using ⟨h1, h2⟩

/-- C7 witness for the amended theorem at a concrete subject. -/
theorem c7_counter_invariants_witness :
    SubjectInv ⟨10, 5, 3, 0⟩ ∧
    (SubjectInv (markAttendance ⟨10, 5, 3, 0⟩ true false false) ∧
     SubjectInv (editStage5 ⟨10, 5, 3, 0⟩ (some 7)) ∧
     SubjectInv (editStage6 ⟨10, 5, 3, 0⟩ (some 7)) ∧
     SubjectInv (editStage7 ⟨10, 5, 3, 0⟩ (some 7))) :=
  ⟨by decide, c7_counter_invariants ⟨10, 5, 3, 0⟩ true false false (some 7) (by decide)⟩

/-- C4 counterexample: a record of a 2-hour class scheduled at instant 0
that is still pending at `now = 3h` has not yet passed the claimed
deadline (end time 2h + delay + 2h timeout), yet the overdue pass already
resolves it to absent, because the source measures the timeout from
`scheduledTime` (the class start) plus a fixed 10 minutes. -/
theorem c4_counterexample :
    (⟨.pending, none, false, false, false, 0, some 0⟩ : AttendanceRecord).status
        = .pending ∧
    ¬ specOverdueDeadlinePassed
        ⟨.pending, none, false, false, false, 0, some 0⟩
        7200000 600000 10800000 ∧
    (overduePass 10800000 ⟨.pending, none, false, false, false, 0, some 0⟩
        ⟨0, 0, 0, 0⟩).1.status = .absent := by
  refine ⟨rfl, by norm_num [specOverdueDeadlinePassed], by decide⟩

/-- C4 (amended): the overdue pass resolves a pending record (with a
populated subject) to absent with the auto-marked flag set, incrementing
the total of the subject and leaving attended unchanged, exactly when the
record has been pending for longer than the 2-hour timeout measured from
`scheduledTime` plus a fixed 10-minute delay (class start, not occurrence
end); a pending record not yet past that instant is left untouched. -/
theorem c4_overdue_pass (now : Int) (r : AttendanceRecord) (s : Subject)
    (hp : r.status = .pending) (hsub : r.subjectId.isSome = true) :
    (r.scheduledTime < now - 2 * 3600000 - 10 * 60 * 1000 →
      overduePass now r s =
        (markAbsent r true now, markAttendance s false false false) ∧
      (overduePass now r s).1.status = .absent ∧
      (overduePass now r s).1.autoMarked = true ∧
      (overduePass now r s).2.totalClasses = s.totalClasses + 1 ∧
      (overduePass now r s).2.attendedClasses = s.attendedClasses) ∧
    (¬ r.scheduledTime < now - 2 * 3600000 - 10 * 60 * 1000 →
      overduePass now r s = (r, s)) := by
  constructor
  · intro hlt
    have hcond : (r.status == Status.pending &&
        decide (r.scheduledTime < now - 2 * 3600000 - 10 * 60 * 1000) &&
        r.subjectId.isSome) = true := by
      simp [hp, hsub]; omega
    rw [overduePass, if_pos hcond]
    exact ⟨rfl, rfl, rfl, rfl, rfl⟩
  · intro hge
    have hcond : ¬ ((r.status == Status.pending &&
        decide (r.scheduledTime < now - 2 * 3600000 - 10 * 60 * 1000) &&
        r.subjectId.isSome) = true) := by
      simp [hp, hsub]; omega
    rw [overduePass, if_neg hcond]

/-- C4 witness for the amended theorem at a concrete overdue record and a
concrete not-yet-due record. -/
theorem c4_overdue_pass_witness :
    (overduePass 10000000 ⟨.pending, none, false, false, false, 0, some 0⟩
        ⟨4, 3, 0, 0⟩).1.status = .absent ∧
    (overduePass 10000000 ⟨.pending, none, false, false, false, 0, some 0⟩
        ⟨4, 3, 0, 0⟩).2.totalClasses = 5 ∧
    overduePass 7000000 ⟨.pending, none, false, false, false, 0, some 0⟩
        ⟨4, 3, 0, 0⟩ =
      (⟨.pending, none, false, false, false, 0, some 0⟩, ⟨4, 3, 0, 0⟩) :=
  ⟨((c4_overdue_pass 10000000 ⟨.pending, none, false, false, false, 0, some 0⟩
      ⟨4, 3, 0, 0⟩ rfl rfl).1 (by decide)).2.1,
   ((c4_overdue_pass 10000000 ⟨.pending, none, false, false, false, 0, some 0⟩
      ⟨4, 3, 0, 0⟩ rfl rfl).1 (by decide)).2.2.2.1,
   (c4_overdue_pass 7000000 ⟨.pending, none, false, false, false, 0, some 0⟩
      ⟨4, 3, 0, 0⟩ rfl rfl).2 (by decide)⟩

/-- Toward-zero division by 60000 vanishes exactly on the open interval
(-60000, 60000). -/
lemma tdiv_60000_eq_zero_iff (x : Int) :
    Int.tdiv x 60000 = 0 ↔ -60000 < x ∧ x < 60000 := by
  cases x with
  | ofNat m =>
    have h : Int.tdiv (Int.ofNat m) 60000 = Int.ofNat (m / 60000) := rfl
    rw [h]
    simp only [Int.ofNat_eq_natCast]
    omega
  | negSucc m =>
    have h : Int.tdiv (Int.negSucc m) 60000 = -Int.ofNat ((m + 1) / 60000) := rfl
    rw [h, Int.negSucc_eq]
    simp only [Int.ofNat_eq_natCast]
    omega

/-- C5: the reminder pass fires for a schedule entry exactly when the
current instant is (strictly) within one minute of the next occurrence
minus ten minutes, all computed in the local time of the user; for the
Monday 10:00 entry the pass fires at Monday 09:50 local and does not fire
at Monday 09:30 local. -/
theorem c5_reminder_window (sched : ClassSchedule) (now : Int) :
    (shouldSendReminder sched now = true ↔
      -60000 < now - (getNextClassTime sched now - 10 * 60000) ∧
      now - (getNextClassTime sched now - 10 * 60000) < 60000) ∧
    getNextClassTime ⟨1, 10, 0⟩ 121800000 = 122400000 ∧
    shouldSendReminder ⟨1, 10, 0⟩ 121800000 = true ∧
    shouldSendReminder ⟨1, 10, 0⟩ 120600000 = false := by
  refine ⟨?_, by decide, by decide, by decide⟩
  rw [shouldSendReminder, momentDiffMinutes, decide_eq_true_iff]
  rw [Nat.lt_one_iff, Int.natAbs_eq_zero]
  exact tdiv_60000_eq_zero_iff _

/-- C8 counterexample: with a removal confirmation pending for `Physics`
(so the active-command marker holds `/remove`), starting an edit wizard
yields the generic dispatcher conflict, whose message names no flow at all
— the claim that the conflict message identifies the in-progress flow
fails — although the session is indeed left unchanged. -/
theorem c8_counterexample :
    handleCommand ⟨some "/remove", false, some "Physics", false⟩ "/edit"
        (some "Math") =
      (⟨some "/remove", false, some "Physics", false⟩,
        .conflictCommandActive) ∧
    Reply.namedFlow .conflictCommandActive = none := by
  refine ⟨by decide, rfl⟩

/-- C8 (amended): starting a different top-level command while a flow is
open returns the generic conflict reply (which does not identify the
in-progress flow) and leaves the whole session state unchanged; re-issuing
`/remove` while its own confirmation is pending returns a conflict that
does name the pending subject, again without touching the session; and a
message arriving while the edit wizard is open is routed into the wizard,
not used to overwrite it. -/
theorem c8_no_silent_overwrite :
    (∀ (st : SessionState) (cmd : String) (found : Option String) (c : String),
      st.activeCommand = some c → c ≠ cmd →
      handleCommand st cmd found = (st, .conflictCommandActive)) ∧
    (∀ (st : SessionState) (found : Option String) (n : String),
      st.activeCommand = some "/remove" → st.editing = false →
      st.pendingRemove = some n →
      handleCommand st "/remove" found = (st, .conflictPendingRemoval n)) ∧
    (∀ (st : SessionState) (cmd : String) (found : Option String),
      st.activeCommand = some cmd → st.editing = true →
      handleCommand st cmd found = (st, .wizardInput)) := by
  refine ⟨?_, ?_, ?_⟩
  · intro st cmd found c hac hne
    have hguard : (st.activeCommand.isSome && st.activeCommand != some cmd) = true := by
      simp [hac, hne]
    rw [handleCommand, if_pos hguard]
  · intro st found n hac hed hpend
    have d1 : ("/remove" : String) ≠ "/start" := by decide
    have d2 : ("/remove" : String) ≠ "/help" := by decide
    cases st with
    | mk a e p cl =>
      simp only at hac hed hpend
      subst hac
      subst hed
      subst hpend
      simp [handleCommand, handleRemove, d1, d2]
  · intro st cmd found hac hed
    have hguard : ¬ ((st.activeCommand.isSome && st.activeCommand != some cmd) = true) := by
      simp [hac]
    rw [handleCommand, if_neg hguard, if_pos hed]

/-- C8 witness for the amended theorem at concrete session states. -/
theorem c8_no_silent_overwrite_witness :
    handleCommand ⟨some "/edit", true, none, false⟩ "/remove" none =
      (⟨some "/edit", true, none, false⟩, .conflictCommandActive) ∧
    handleCommand ⟨some "/remove", false, some "Physics", false⟩ "/remove"
        (some "Math") =
      (⟨some "/remove", false, some "Physics", false⟩,
        .conflictPendingRemoval "Physics") ∧
    handleCommand ⟨some "/edit", true, none, false⟩ "/edit" none =
      (⟨some "/edit", true, none, false⟩, .wizardInput) :=
  ⟨c8_no_silent_overwrite.1 ⟨some "/edit", true, none, false⟩ "/remove" none
      "/edit" rfl (by decide),
   c8_no_silent_overwrite.2.1 ⟨some "/remove", false, some "Physics", false⟩
      (some "Math") "Physics" rfl rfl rfl,
   c8_no_silent_overwrite.2.2 ⟨some "/edit", true, none, false⟩ "/edit" none
      rfl rfl⟩

/-- Unfolding equation for `selectPending` on a cons cell. -/
lemma selectPending_cons (a : AttendanceRecord) (tl : List AttendanceRecord) :
    selectPending (a :: tl) =
      match selectPending tl with
      | none => if isCand a then some (0, a) else none
      | some (b, rb) =>
        if isCand a then
          if rb.scheduledTime ≤ a.scheduledTime then some (0, a)
          else some (b + 1, rb)
        else some (b + 1, rb) := rfl

/-- The selected pair of `selectPending` is a candidate element of the
list at the returned position. -/
lemma selectPending_mem :
    ∀ (rs : List AttendanceRecord) (i : Nat) (r : AttendanceRecord),
      selectPending rs = some (i, r) → rs[i]? = some r ∧ isCand r = true := by
  intro rs
  induction rs with
  | nil => intro i r h; simp [selectPending] at h
  | cons a tl ih =>
    intro i r h
    rw [selectPending_cons] at h
    cases hsel : selectPending tl with
    | none =>
      rw [hsel] at h
      dsimp only at h
      by_cases hc : isCand a
      · rw [if_pos hc] at h
        obtain ⟨hi, hr⟩ : 0 = i ∧ a = r := by simpa using h
        subst hi; subst hr
        exact ⟨List.getElem?_cons_zero, hc⟩
      · rw [if_neg hc] at h
        simp at h
    | some pair =>
      obtain ⟨b, rb⟩ := pair
      rw [hsel] at h
      dsimp only at h
      obtain ⟨hmem, hcand⟩ := ih b rb hsel
      by_cases hc : isCand a
      · by_cases ht : rb.scheduledTime ≤ a.scheduledTime
        · rw [if_pos hc, if_pos ht] at h
          obtain ⟨hi, hr⟩ : 0 = i ∧ a = r := by simpa using h
          subst hi; subst hr
          exact ⟨List.getElem?_cons_zero, hc⟩
        · rw [if_pos hc, if_neg ht] at h
          obtain ⟨hi, hr⟩ : b + 1 = i ∧ rb = r := by simpa using h
          subst hi; subst hr
          exact ⟨by simpa using hmem, hcand⟩
      · rw [if_neg hc] at h
        obtain ⟨hi, hr⟩ : b + 1 = i ∧ rb = r := by simpa using h
        subst hi; subst hr
        exact ⟨by simpa using hmem, hcand⟩

/-- When a candidate record strictly dominates the `scheduledTime` of every
other candidate, `selectPending` returns exactly it. -/
lemma selectPending_eq_max :
    ∀ (rs : List AttendanceRecord) (i : Nat) (r : AttendanceRecord),
      rs[i]? = some r → isCand r = true →
      (∀ (j : Nat) (q : AttendanceRecord), rs[j]? = some q → j ≠ i →
        isCand q = true → q.scheduledTime < r.scheduledTime) →
      selectPending rs = some (i, r) := by
  intro rs
  induction rs with
  | nil => intro i r h _ _; simp at h
  | cons a tl ih =>
    intro i r hi hc hmax
    cases i with
    | zero =>
      have ha : a = r := by simpa using hi
      subst ha
      rw [selectPending_cons]
      cases hsel : selectPending tl with
      | none => simp [hc]
      | some pair =>
        obtain ⟨b, rb⟩ := pair
        obtain ⟨hmem, hcand⟩ := selectPending_mem tl b rb hsel
        have hlt : rb.scheduledTime < a.scheduledTime :=
          hmax (b + 1) rb (by simpa using hmem) (Nat.succ_ne_zero b) hcand
        simp [hc, hlt.le]
    | succ k =>
      have hk : tl[k]? = some r := by simpa using hi
      have hmax2 : ∀ (j : Nat) (q : AttendanceRecord), tl[j]? = some q →
          j ≠ k → isCand q = true → q.scheduledTime < r.scheduledTime := by
        intro j q hj hne hq
        exact hmax (j + 1) q (by simpa using hj) (by omega) hq
      have hsel : selectPending tl = some (k, r) := ih k r hk hc hmax2
      rw [selectPending_cons, hsel]
      by_cases hca : isCand a
      · have hlt : a.scheduledTime < r.scheduledTime :=
          hmax 0 a (by simp) (by omega) hca
        simp [hca, not_le.mpr hlt]
      · simp [hca]

/-- The record update applied by the branch of `handleAttendanceResponse`
selected for the parsed outcome. -/
def resolveAs (out : Status) (now : Int) (r : AttendanceRecord) :
    AttendanceRecord :=
  match out with
  | .present => markPresent r now
  | .absent => markAbsent r false now
  | .massBunked => markMassBunk r now
  | .holiday => markHoliday r now
  | .pending => r

/-- `parseAttendanceResponse` never classifies a message as pending. -/
lemma parse_ne_pending (m : String) :
    parseAttendanceResponse m ≠ some .pending := by
  rw [parseAttendanceResponse]
  repeat' split
  all_goals simp

/-- C1 counterexample: the record-level mark methods have no terminal-state
guard — `markPresent` on a record already resolved absent flips its status
to present, so a further resolution call does change a terminal record. -/
theorem c1_counterexample :
    (⟨.absent, none, false, false, false, 0, some 1⟩ : AttendanceRecord).status
        = .absent ∧
    (markPresent ⟨.absent, none, false, false, false, 0, some 1⟩ 5).status
        = .present ∧
    markPresent ⟨.absent, none, false, false, false, 0, some 1⟩ 5 ≠
      ⟨.absent, none, false, false, false, 0, some 1⟩ := by
  refine ⟨rfl, rfl, by decide⟩

/-- C1 (amended): terminal finality is enforced by record selection, not by
the mark methods: the attendance-response handler resolves only the record
returned by a pending-only query, so any record already in a terminal
status is left exactly as it is by the handler, and the overdue pass
(whose query is also pending-only) leaves any non-pending record and its
subject untouched; the raw mark methods themselves, called directly on a
terminal record, overwrite its status. -/
theorem c1_terminal_finality :
    (∀ (st : AttendanceStore) (body : String) (now : Int) (i : Nat)
        (r : AttendanceRecord),
      st.records[i]? = some r → r.status ≠ .pending →
      (handleAttendanceResponse st body now).records[i]? = some r) ∧
    (∀ (now : Int) (r : AttendanceRecord) (s : Subject),
      r.status ≠ .pending → overduePass now r s = (r, s)) := by
  constructor
  · intro st body now i r hi hterm
    cases hsel : selectPending st.records with
    | none => simpa [handleAttendanceResponse, hsel] using hi
    | some pair =>
      obtain ⟨k, rsel⟩ := pair
      obtain ⟨hmem, hcand⟩ := selectPending_mem st.records k rsel hsel
      have hpend : rsel.status = .pending := by
        simp only [isCand, Bool.and_eq_true, beq_iff_eq] at hcand
        exact hcand.1
      have hne : k ≠ i := by
        intro he
        subst he
        rw [hi] at hmem
        obtain rfl : r = rsel := by simpa using hmem
        exact hterm hpend
      cases hsub : rsel.subjectId with
      | none => simpa [handleAttendanceResponse, hsel, hsub] using hi
      | some sid =>
        cases hp : parseAttendanceResponse body with
        | none => simpa [handleAttendanceResponse, hsel, hsub, hp] using hi
        | some out =>
          cases out <;>
            simpa [handleAttendanceResponse, hsel, hsub, hp,
              List.getElem?_set_ne hne] using hi
  · intro now r s hterm
    have hb : (r.status == Status.pending) = false := by
      simpa using hterm
    simp [overduePass, hb]

/-- C1 witness for the amended theorem at a store holding one absent
record and at a holiday record for the overdue pass. -/
theorem c1_terminal_finality_witness :
    (handleAttendanceResponse
        ⟨[⟨.absent, none, false, false, false, 0, some 0⟩],
          fun _ => ⟨0, 0, 0, 0⟩⟩ "yes" 5).records[0]? =
      some ⟨.absent, none, false, false, false, 0, some 0⟩ ∧
    overduePass 99999999 ⟨.holiday, none, false, false, false, 0, some 0⟩
        ⟨1, 1, 0, 0⟩ =
      (⟨.holiday, none, false, false, false, 0, some 0⟩, ⟨1, 1, 0, 0⟩) :=
  ⟨c1_terminal_finality.1
      ⟨[⟨.absent, none, false, false, false, 0, some 0⟩], fun _ => ⟨0, 0, 0, 0⟩⟩
      "yes" 5 0 ⟨.absent, none, false, false, false, 0, some 0⟩ rfl (by decide),
   c1_terminal_finality.2 99999999 ⟨.holiday, none, false, false, false, 0, some 0⟩
      ⟨1, 1, 0, 0⟩ (by decide)⟩

/-- C10: when a registered user sends a recognized attendance token while
several records are pending, the handler resolves exactly the pending
record (with a populated subject) of greatest `scheduledTime` across all
subjects of the user, and every other record — in particular every other
pending record — is left unchanged. -/
theorem c10_latest_pending_wins
    (st : AttendanceStore) (body : String) (now : Int) (i : Nat)
    (r : AttendanceRecord)
    (hi : st.records[i]? = some r)
    (hc : isCand r = true)
    (hmax : ∀ (j : Nat) (q : AttendanceRecord), st.records[j]? = some q →
      j ≠ i → isCand q = true → q.scheduledTime < r.scheduledTime)
    (hrec : isAttendanceResponse body = true) :
    ∃ out, parseAttendanceResponse body = some out ∧ out ≠ .pending ∧
      (handleAttendanceResponse st body now).records =
        st.records.set i (resolveAs out now r) ∧
      (resolveAs out now r).status = out ∧
      ∀ j : Nat, j ≠ i →
        (handleAttendanceResponse st body now).records[j]? =
          st.records[j]? := by
  have hsel := selectPending_eq_max st.records i r hi hc hmax
  have hsome := parse_isSome_of_recognized body hrec
  rw [Option.isSome_iff_exists] at hsome
  obtain ⟨out, hout⟩ := hsome
  have hnp : out ≠ .pending := by
    intro he
    subst he
    exact parse_ne_pending body hout
  obtain ⟨sid, hsid⟩ : ∃ sid, r.subjectId = some sid := by
    simp only [isCand, Bool.and_eq_true, Option.isSome_iff_exists] at hc
    exact hc.2
  refine ⟨out, hout, hnp, ?_, ?_, ?_⟩
  · cases out <;>
      simp [handleAttendanceResponse, hsel, hsid, hout, resolveAs]
    exact absurd rfl hnp
  · cases out <;>
      simp [resolveAs, markPresent, markAbsent, markMassBunk, markHoliday]
    exact absurd rfl hnp
  · intro j hj
    cases out <;>
      simp [handleAttendanceResponse, hsel, hsid, hout, resolveAs,
        List.getElem?_set_ne (fun he => hj he.symm)]

/-- C10 witness: a store with two pending records, where the later one
(position 1) is resolved present by the token `yes` and the earlier one
stays pending. -/
theorem c10_latest_pending_wins_witness :
    ∃ out, parseAttendanceResponse "yes" = some out ∧ out ≠ .pending ∧
      (handleAttendanceResponse
          ⟨[⟨.pending, none, false, false, false, 3, some 1⟩,
            ⟨.pending, none, false, false, false, 9, some 2⟩],
            fun _ => ⟨0, 0, 0, 0⟩⟩ "yes" 11).records =
        [⟨.pending, none, false, false, false, 3, some 1⟩,
         ⟨.pending, none, false, false, false, 9, some 2⟩].set 1
          (resolveAs out 11 ⟨.pending, none, false, false, false, 9, some 2⟩) ∧
      (resolveAs out 11 ⟨.pending, none, false, false, false, 9, some 2⟩).status
          = out ∧
      ∀ j : Nat, j ≠ 1 →
        (handleAttendanceResponse
            ⟨[⟨.pending, none, false, false, false, 3, some 1⟩,
              ⟨.pending, none, false, false, false, 9, some 2⟩],
              fun _ => ⟨0, 0, 0, 0⟩⟩ "yes" 11).records[j]? =
          [⟨.pending, none, false, false, false, 3, some 1⟩,
           ⟨.pending, none, false, false, false, 9, some 2⟩][j]? :=
  c10_latest_pending_wins
    ⟨[⟨.pending, none, false, false, false, 3, some 1⟩,
      ⟨.pending, none, false, false, false, 9, some 2⟩], fun _ => ⟨0, 0, 0, 0⟩⟩
    "yes" 11 1 ⟨.pending, none, false, false, false, 9, some 2⟩ rfl (by decide)
    (by
      intro j q hj hne hq
      match j, hj with
      | 0, hj =>
        obtain rfl : q = ⟨.pending, none, false, false, false, 3, some 1⟩ := by
          simpa using hj.symm
        decide
      | 1, hj => exact absurd rfl hne
      | n + 2, hj => simp at hj)
    (by decide)

end WhatsappBot
